import Mathlib

/-!
Verification development for the community-reporting application (app.py).

The report persistence and export pipeline of the application is embedded
shallowly: the JSON report file, the image directory tree and the two Excel
workbooks become an explicit file-system state `FS`; the Flask handlers
`submit_report`, `load_reports`, `save_reports` and `export_reports_excel`
become pure functions over that state.  Python strings are Lean strings
(both sequences of unicode code points, so `len` is `String.length`);
Python float parsing of the decimal forms used by the application is
modelled as exact rational parsing via `mkRat`; fallible JSON parsing is an
`Except`.  All definitions are executable and structurally recursive so the
kernel can evaluate them on concrete inputs.
-/

/-! ### Python string primitives

Structurally recursive models of the Python string operations the handlers
use (`str.replace`, `str.split(sep)`, `str.split()`, `str.lower`,
`str.capitalize`, `float`, `os.path.splitext`).  Each recursion over a
fuel argument is run with fuel equal to the length of the input, which is
always sufficient because every step consumes at least one character.
-/

/-- Model of Python `s.replace(pat, rep)` (leftmost, non-overlapping): the
fuel-indexed worker. -/
def replFuel (pat rep : List Char) : Nat → List Char → List Char
  | 0, cs => cs
  | _ + 1, [] => []
  | f + 1, c :: cs =>
    if pat.isPrefixOf (c :: cs) ∧ pat ≠ [] then
      rep ++ replFuel pat rep f ((c :: cs).drop pat.length)
    else
      c :: replFuel pat rep f cs

/-- Model of Python `s.replace(pat, rep)` for a non-empty pattern. -/
def pyReplace (s pat rep : String) : String :=
  String.mk (replFuel pat.data rep.data s.data.length s.data)

/-- Model of Python `s.split(sep)` for a non-empty separator: the
fuel-indexed worker. -/
def splitFuel (sep : List Char) : Nat → List Char → List (List Char)
  | 0, cs => [cs]
  | _ + 1, [] => [[]]
  | f + 1, c :: cs =>
    if sep.isPrefixOf (c :: cs) ∧ sep ≠ [] then
      [] :: splitFuel sep f ((c :: cs).drop sep.length)
    else
      match splitFuel sep f cs with
      | [] => [[c]]
      | h :: t => (c :: h) :: t

/-- Model of Python `s.split(sep)` for a non-empty separator. -/
def pySplit (s sep : String) : List String :=
  (splitFuel sep.data s.data.length s.data).map String.mk

/-- Model of Python `s.split()` (split on whitespace runs, dropping empty
pieces). -/
def pySplitWS (s : String) : List String :=
  ((s.data.splitBy (fun a b => a.isWhitespace == b.isWhitespace)).filter
    (fun w => !(w.all Char.isWhitespace))).map String.mk

/-- Model of Python `s.lower()` on the ASCII range. -/
def pyLower (s : String) : String :=
  String.mk (s.data.map Char.toLower)

/-- Model of Python `s.capitalize()` on the ASCII range: first character
upper-cased, the rest lower-cased. -/
def pyCapitalize (s : String) : String :=
  match s.data with
  | [] => ""
  | c :: rest => String.mk (c.toUpper :: rest.map Char.toLower)

/-- Join a list of strings with a separator (Python `sep.join(l)`). -/
def joinSep (sep : String) : List String → String
  | [] => ""
  | [x] => x
  | x :: y :: xs => x ++ sep ++ joinSep sep (y :: xs)

/-- Numeric value of a list of decimal digit characters, most significant
first. -/
def natOfDigits (l : List Char) : Nat :=
  l.foldl (fun n c => 10 * n + (c.toNat - 48)) 0

/-- Model of Python `float(s)` on the decimal forms the application
exchanges: an optional sign followed by digits with at most one decimal
point (at least one digit in total).  The value is the exact rational the
decimal denotes, built with a single `mkRat` so the kernel can evaluate
it.  Forms outside this subset (exponents, `inf`, `nan`, surrounding
whitespace) are not modelled and are treated as parse failures. -/
def pyFloat (s : String) : Option ℚ :=
  match s.data with
  | [] => none
  | cs =>
    let signed : Bool × List Char :=
      match cs with
      | '-' :: r => (true, r)
      | '+' :: r => (false, r)
      | r => (false, r)
    match splitFuel ['.'] signed.2.length signed.2 with
    | [ip] =>
      if ip ≠ [] ∧ ip.all Char.isDigit then
        some (mkRat (if signed.1 then -(natOfDigits ip : Int) else (natOfDigits ip : Int)) 1)
      else none
    | [ip, fp] =>
      if (ip ≠ [] ∨ fp ≠ []) ∧ ip.all Char.isDigit ∧ fp.all Char.isDigit then
        let mant : Nat := natOfDigits ip * 10 ^ fp.length + natOfDigits fp
        some (mkRat (if signed.1 then -(mant : Int) else (mant : Int)) (10 ^ fp.length))
      else none
    | _ => none

/-- Index of the last occurrence of a dot in a character list. -/
def lastDotIdx : List Char → Option Nat
  | [] => none
  | c :: rest =>
    match lastDotIdx rest with
    | some i => some (i + 1)
    | none => if c = '.' then some 0 else none

/-- Model of the extension component of Python `os.path.splitext(p)`: the
suffix of the basename from its last dot, provided some non-dot character
of the basename precedes that dot (leading dots carry no extension). -/
def splitextExt (p : String) : String :=
  let b := ((pySplit p "/").getLast?).getD ""
  let cs := b.data
  let k := (cs.takeWhile (fun c => c = '.')).length
  match lastDotIdx cs with
  | some i => if k < i then String.mk (cs.drop i) else ""
  | none => ""

/-- Model of `werkzeug.utils.secure_filename` on the ASCII range: non-ASCII
characters are dropped (standing in for NFKD-normalise-then-ASCII-encode),
path separators become spaces, whitespace-separated words are joined with
underscores, characters outside `[A-Za-z0-9_.-]` are removed, and leading
and trailing dots and underscores are stripped. -/
def secure_filename (filename : String) : String :=
  let ascii := filename.data.filter (fun c => c.toNat < 128)
  let noSep := ascii.map (fun c => if c = '/' then ' ' else c)
  let joined := joinSep "_" (pySplitWS (String.mk noSep))
  let kept := joined.data.filter
    (fun c => c.isAlphanum || c = '_' || c = '.' || c = '-')
  let junk := fun c => c = '.' || c = '_'
  String.mk (((kept.dropWhile junk).reverse.dropWhile junk).reverse)

/-! ### Data model and file-system state

`Report` is the JSON object built at app.py line 220: seven fields in a
fixed key order (`type`, `location`, `description`, `coord_x`, `coord_y`,
`datetime`, `images`).  `FS` is the observable file-system state the
handlers touch: the reports JSON file (which may be missing, unparseable
or hold a report array), the set of existing directories, the image files
written so far, and the mirrored Excel workbook.
-/

/-- A report record (app.py lines 220 to 228). -/
structure Report where
  type : String
  location : String
  description : String
  coord_x : ℚ
  coord_y : ℚ
  datetime : String
  images : List String
  deriving DecidableEq, Repr

/-- The state of the reports JSON file. -/
inductive JsonFile where
  | missing
  | corrupt
  | good (reports : List Report)
  deriving DecidableEq, Repr

/-- A cell of an Excel worksheet: the handlers only write strings and
numbers. -/
inductive Cell where
  | str (s : String)
  | num (q : ℚ)
  deriving DecidableEq, Repr

/-- An Excel worksheet: a title, a header row and the data rows. -/
structure Sheet where
  title : String
  header : List String
  rows : List (List Cell)
  deriving DecidableEq, Repr

/-- The file-system state observable by the handlers. -/
structure FS where
  reportsFile : JsonFile
  dirs : List String
  imageFiles : List (String × String)
  excel : Option (List Sheet)
  deriving DecidableEq, Repr

/-- An uploaded file as the handler sees it: its client-supplied filename
(empty when the form part carries no filename) and whether the write of
its bytes to disk succeeds. -/
structure UploadedFile where
  filename : String
  saveOk : Bool
  deriving DecidableEq, Repr

/-- The fixed category set `REPORT_TYPES` (app.py line 21), also the `categories` list of
`save_reports` (line 47). -/
def REPORT_TYPES : List String := ["pollution", "deforestation", "improvement", "other"]

/-- The image root directory `IMAGE_ROOT` (app.py line 20), relative to the app root. -/
def IMAGE_ROOT : String := "report_images"

/-- The key order of a report object (insertion order of the dict built at
app.py line 220). -/
def reportKeys : List String :=
  ["type", "location", "description", "coord_x", "coord_y", "datetime", "images"]

/-! ### Storage adapter: load_reports and save_reports -/

/-- Whether the reports file exists (`os.path.exists`, app.py line 28). -/
def fileExists : JsonFile → Bool
  | .missing => false
  | .corrupt => true
  | .good _ => true

/-- Model of `json.load` on the reports file: parsing fails on corrupt
content (the file is known to exist when this runs). -/
def json_load : JsonFile → Except String (List Report)
  | .missing => .error "No such file"
  | .corrupt => .error "Expecting value"
  | .good reports => .ok reports

/-- Model of `load_reports` (app.py lines 26 to 35): if the file exists, parse it,
catching any parse error and returning the empty list; if the file does
not exist, return the empty list. -/
def load_reports (fs : FS) : List Report :=
  if fileExists fs.reportsFile then
    match json_load fs.reportsFile with
    | .ok reports => reports
    | .error _ => []
  else []

/-- The category a report is grouped under in `save_reports` (app.py lines
49 to 54): its lower-cased `type` when that is a known category, else
`other`. -/
def resolvedCat (r : Report) : String :=
  let cat := pyLower r.type
  if cat ∈ REPORT_TYPES then cat else "other"

/-- The Excel row of one report (app.py lines 67 to 75): every field as a
cell in key order, with the `images` list flattened to a comma-joined
string. -/
def reportRow (r : Report) : List Cell :=
  [.str r.type, .str r.location, .str r.description, .num r.coord_x,
   .num r.coord_y, .str r.datetime, .str (joinSep ", " r.images)]

/-- The sheet of one category (app.py lines 59 to 88): skipped when the
group is empty, otherwise titled with the capitalized category, with the
capitalized keys of the first report of the group as header row and one
data row per report of the group. -/
def categorySheet (reports : List Report) (cat : String) : Option Sheet :=
  let data := reports.filter (fun r => resolvedCat r == cat)
  if data = [] then none
  else some { title := pyCapitalize cat,
              header := reportKeys.map pyCapitalize,
              rows := data.map reportRow }

/-- The mirrored Excel workbook derived by `save_reports` (app.py lines 46
to 90): reports grouped by `resolvedCat` in a single pass (so each group
keeps submission order), one sheet per non-empty category in the fixed
category order. -/
def excelWorkbook (reports : List Report) : List Sheet :=
  REPORT_TYPES.filterMap (categorySheet reports)

/-- The total number of data rows of a workbook. -/
def sheetRowCount (sheets : List Sheet) : Nat :=
  (sheets.map fun s => s.rows.length).sum

/-- Model of `save_reports` (app.py lines 37 to 90): overwrite the JSON file with
the full sequence, then regenerate the mirrored Excel workbook from it. -/
def save_reports (reports : List Report) (fs : FS) : FS :=
  { fs with reportsFile := .good reports,
            excel := some (excelWorkbook reports) }

/-! ### Image store -/

/-- Model of `os.makedirs` with the exist-ok flag: create the directory if absent. -/
def addDir (dirs : List String) (d : String) : List String :=
  if d ∈ dirs then dirs else dirs ++ [d]

/-- Model of `ensure_image_folders` (app.py lines 154 to 157): create the image
root and one subdirectory per fixed category (idempotent). -/
def ensure_image_folders (fs : FS) : FS :=
  let ds := REPORT_TYPES.foldl (fun ds t => addDir ds (IMAGE_ROOT ++ "/" ++ t)) (addDir fs.dirs IMAGE_ROOT)
  { fs with dirs := ds }

/-- The image-saving loop of `submit_report` (app.py lines 204 to 214),
carrying the zero-based `enumerate` counter: every file with a non-empty
filename gets the name `{timestamp}_{index+1}{extension}` passed through
`secure_filename`; a file whose write fails is skipped (logged in the
code) without aborting the rest.  Returns the generated filenames of the
successful writes in input order, and the (folder, filename) writes. -/
def save_images_loop (folder ts : String) : Nat → List UploadedFile →
    List String × List (String × String)
  | _, [] => ([], [])
  | idx, f :: rest =>
    let tail := save_images_loop folder ts (idx + 1) rest
    if f.filename ≠ "" then
      let safe_name := secure_filename (ts ++ "_" ++ toString (idx + 1) ++ splitextExt f.filename)
      if f.saveOk then (safe_name :: tail.1, (folder, safe_name) :: tail.2)
      else tail
    else tail

/-- The image-saving pass of `submit_report`, started with `enumerate`
counter 0. -/
def saveImages (folder ts : String) (files : List UploadedFile) :
    List String × List (String × String) :=
  save_images_loop folder ts 0 files

/-! ### Report service: submit_report -/

/-- The multipart form: an ordered list of (field name, value) pairs. -/
abbrev Form := List (String × String)

/-- Model of `request.form.get(k)`: the first value stored under the key,
or `none`. -/
def pyGet (form : Form) (k : String) : Option String :=
  (form.find? (fun p => p.1 == k)).map Prod.snd

/-- Model of the Python `a or b` fallback on optional strings: `a` unless
it is absent or empty. -/
def pyOr (x y : Option String) : Option String :=
  match x with
  | some s => if s = "" then y else some s
  | none => y

/-- Python truthiness of an optional string: present and non-empty. -/
def truthy : Option String → Bool
  | some s => s ≠ ""
  | none => false

/-- The report type field (app.py line 166): `type`, falling back to
`reportType` when `type` is absent or empty. -/
def formType (form : Form) : Option String :=
  pyOr (pyGet form "type") (pyGet form "reportType")

/-- The location field (app.py line 167): read from `reportLocation`
only. -/
def formLocation (form : Form) : Option String :=
  pyGet form "reportLocation"

/-- The description field (app.py line 168): `description`, falling back
to `reportDescription` when `description` is absent or empty. -/
def formDescription (form : Form) : Option String :=
  pyOr (pyGet form "description") (pyGet form "reportDescription")

/-- The location-string coordinate parse (app.py lines 183 to 185): strip
every occurrence of `Lat: ` and `Lon: `, split on `, `, require exactly
two pieces (the tuple unpacking raises otherwise) and parse both as
floats. -/
def parseLocation (loc : String) : Option (ℚ × ℚ) :=
  let s := pyReplace (pyReplace loc "Lat: " "") "Lon: " ""
  match pySplit s ", " with
  | [a, b] =>
    match pyFloat a, pyFloat b with
    | some x, some y => some (x, y)
    | _, _ => none
  | _ => none

/-- Coordinate resolution (app.py lines 178 to 185): when both explicit
coordinate fields are truthy they are parsed as floats, otherwise the
location string is parsed; `none` models the caught exception. -/
def resolveCoords (loc : String) (cx? cy? : Option String) : Option (ℚ × ℚ) :=
  if truthy cx? && truthy cy? then
    match pyFloat (cx?.getD ""), pyFloat (cy?.getD "") with
    | some x, some y => some (x, y)
    | _, _ => none
  else parseLocation loc

/-- The outcome of `submit_report`: a 400 JSON error, a 500 JSON error, or
a 201 response echoing the stored record. -/
inductive SubmitResult where
  | badRequest (message : String)
  | serverError (message : String)
  | created (report : Report)
  deriving DecidableEq, Repr

/-- The HTTP status code of a `submit_report` outcome. -/
def SubmitResult.statusCode : SubmitResult → Nat
  | .badRequest _ => 400
  | .serverError _ => 500
  | .created _ => 201

/-- The target image folder (app.py line 200): the lower-cased type when
it is a known category, else `other`. -/
def folderFor (report_type : String) : String :=
  if pyLower report_type ∈ REPORT_TYPES then pyLower report_type else "other"

/-- The body of `submit_report` (app.py lines 166 to 233) after the form
fields have been extracted, taking the submission timestamps as inputs
(`ts` is the filename timestamp of line 203, `now` the record timestamp of
line 226).  The `Invalid location format` message carries the caught
exception text in the code; it is modelled as the fixed prefix. -/
def submit_core (rt? loc? desc? cx? cy? : Option String)
    (files : List UploadedFile) (ts now : String) (fs : FS) :
    SubmitResult × FS :=
  if truthy rt? && truthy loc? && truthy desc? then
    let rt := rt?.getD ""
    let loc := loc?.getD ""
    let desc := desc?.getD ""
    if desc.length > 1000 then (.badRequest "Description too long.", fs)
    else
      match resolveCoords loc cx? cy? with
      | none => (.badRequest "Invalid location format", fs)
      | some (cx, cy) =>
        let fs1 := ensure_image_folders fs
        if files.any (fun f => f.filename ≠ "") then
          let folder_name := folderFor rt
          let fs2 := { fs1 with dirs := addDir fs1.dirs (IMAGE_ROOT ++ "/" ++ folder_name) }
          let saved := saveImages folder_name ts files
          let fs3 := { fs2 with imageFiles := fs2.imageFiles ++ saved.2 }
          if saved.1 = [] then (.serverError "Failed to save images.", fs3)
          else
            let new_report : Report :=
              { type := rt, location := loc, description := desc,
                coord_x := cx, coord_y := cy, datetime := now,
                images := saved.1 }
            let reports := load_reports fs3
            (.created new_report, save_reports (reports ++ [new_report]) fs3)
        else (.badRequest "At least one image is required.", fs1)
  else (.badRequest "Missing required fields", fs)

/-- Model of `submit_report` (app.py lines 159 to 233): extract the form fields and
run the handler body. -/
def submit_report (form : Form) (files : List UploadedFile) (ts now : String)
    (fs : FS) : SubmitResult × FS :=
  submit_core (formType form) (formLocation form) (formDescription form)
    (pyGet form "coordX") (pyGet form "coordY") files ts now fs

/-! ### Query and export service -/

/-- Model of `get_reports` (app.py lines 258 to 267): the full persisted sequence,
read through `load_reports`. -/
def get_reports (fs : FS) : List Report :=
  load_reports fs

/-- The outcome of `export_reports_excel`: a 404 JSON error, a 500 JSON
error, or a downloadable single-sheet workbook. -/
inductive ExportResult where
  | notFound (message : String)
  | serverError (message : String)
  | download (sheet : Sheet)
  deriving DecidableEq, Repr

/-- The HTTP status code of an export outcome. -/
def ExportResult.statusCode : ExportResult → Nat
  | .notFound _ => 404
  | .serverError _ => 500
  | .download _ => 200

/-- Model of `export_reports_excel` (app.py lines 283 to 298): 404 when the loaded
sequence is empty, otherwise a single-sheet workbook built by
`pd.DataFrame(reports).to_excel` — the report keys as header and one data
row per report, all categories together. -/
def export_reports_excel (fs : FS) : ExportResult :=
  let reports := load_reports fs
  if reports = [] then .notFound "No reports to export."
  else .download { title := "Sheet1", header := reportKeys,
                   rows := reports.map reportRow }

/-! ### Concrete fixtures

A small concrete submission used to instantiate the theorems below: an
empty store, a valid form, one uploaded image that saves successfully.
-/

/-- An empty starting state: no reports file, no directories, no images,
no workbook. -/
def emptyFS : FS :=
  { reportsFile := .missing, dirs := [], imageFiles := [], excel := none }

/-- A concrete valid submission form. -/
def exampleForm : Form :=
  [("type", "Pollution"), ("reportLocation", "Lat: 35.92, Lon: 74.30"),
   ("description", "trash by the river")]

/-- One uploaded image whose write succeeds. -/
def exampleFiles : List UploadedFile :=
  [{ filename := "photo one.jpg", saveOk := true }]

/-- The record the example submission stores and echoes. -/
def exampleReport : Report where
  type := "Pollution"
  location := "Lat: 35.92, Lon: 74.30"
  description := "trash by the river"
  coord_x := mkRat 3592 100
  coord_y := mkRat 7430 100
  datetime := "2025-01-01 12:00:00"
  images := ["20250101_120000_1.jpg"]

/-- The state after the example submission. -/
def exampleFS : FS :=
  (submit_report exampleForm exampleFiles "20250101_120000"
    "2025-01-01 12:00:00" emptyFS).2

/-! ### Helper lemmas -/

/-- Reading back directly after a save yields the saved sequence. -/
theorem load_reports_save_reports (reports : List Report) (fs : FS) :
    load_reports (save_reports reports fs) = reports := rfl

/-- Creating image directories does not touch the reports file. -/
theorem load_reports_ensure_image_folders (fs : FS) :
    load_reports (ensure_image_folders fs) = load_reports fs := rfl

/-- The image-saving loop is the filterMap over the enumerated files:
files with a non-empty filename and a successful write contribute their
sanitized generated name (and a write into the folder), all others are
skipped. -/
theorem save_images_loop_eq (folder ts : String) (files : List UploadedFile)
    (idx : Nat) :
    save_images_loop folder ts idx files =
      ((files.enumFrom idx).filterMap fun p =>
        if p.2.filename ≠ "" ∧ p.2.saveOk = true then
          some (secure_filename (ts ++ "_" ++ toString (p.1 + 1) ++ splitextExt p.2.filename))
        else none,
       (files.enumFrom idx).filterMap fun p =>
        if p.2.filename ≠ "" ∧ p.2.saveOk = true then
          some (folder, secure_filename (ts ++ "_" ++ toString (p.1 + 1) ++ splitextExt p.2.filename))
        else none) := by
  induction files generalizing idx with
  | nil => rfl
  | cons f rest ih =>
    simp only [save_images_loop, List.enumFrom, List.filterMap_cons, ih]
    by_cases h1 : f.filename = "" <;> by_cases h2 : f.saveOk <;> simp [h1, h2]

/-- When some file has a non-empty filename and a successful write, the
loop returns at least one generated filename. -/
theorem save_images_loop_ne_nil {folder ts : String} {files : List UploadedFile}
    {idx : Nat} (h : files.any (fun f => f.filename != "" && f.saveOk) = true) :
    (save_images_loop folder ts idx files).1 ≠ [] := by
  induction files generalizing idx with
  | nil => simp at h
  | cons f rest ih =>
    simp only [List.any_cons, Bool.or_eq_true, Bool.and_eq_true, bne_iff_ne] at h
    simp only [save_images_loop]
    by_cases h1 : f.filename = ""
    · rw [if_neg (by simp [h1])]
      refine ih ?_
      rcases h with ⟨ha, _⟩ | hr
      · exact absurd h1 ha
      · exact hr
    · by_cases h2 : f.saveOk = true
      · rw [if_pos h1, if_pos h2]
        simp
      · rw [if_pos h1, if_neg h2]
        refine ih ?_
        rcases h with ⟨_, hb⟩ | hr
        · exact absurd hb h2
        · exact hr

/-- Successful-write existence implies non-empty-filename existence. -/
theorem any_filename_of_any_saved {files : List UploadedFile}
    (h : files.any (fun f => f.filename != "" && f.saveOk) = true) :
    files.any (fun f => f.filename ≠ "") = true := by
  simp only [List.any_eq_true, Bool.and_eq_true, bne_iff_ne] at h ⊢
  obtain ⟨f, hf, h1, _⟩ := h
  exact ⟨f, hf, by simpa using h1⟩

/-- Adding a binding under a different key does not change a form read. -/
theorem pyGet_cons_ne (k0 v k : String) (form : Form) (h : (k0 == k) = false) :
    pyGet ((k0, v) :: form) k = pyGet form k := by
  simp [pyGet, List.find?, h]

/-- Anything `submit_report` answers with 201 has been appended to the
persisted sequence: the state after a `created` outcome holds exactly the
prior sequence plus the echoed record. -/
theorem submit_core_created {rt? loc? desc? cx? cy? : Option String}
    {files : List UploadedFile} {ts now : String} {fs : FS} {r : Report} {fs' : FS}
    (h : submit_core rt? loc? desc? cx? cy? files ts now fs = (.created r, fs')) :
    load_reports fs' = load_reports fs ++ [r] := by
  simp only [submit_core] at h
  split at h
  · split at h
    · exact SubmitResult.noConfusion (congrArg Prod.fst h)
    · split at h
      · exact SubmitResult.noConfusion (congrArg Prod.fst h)
      · split at h
        · split at h
          · exact SubmitResult.noConfusion (congrArg Prod.fst h)
          · rw [Prod.mk.injEq] at h
            obtain ⟨h1, h2⟩ := h
            injection h1 with h1
            subst h1
            rw [← h2]
            rfl
        · exact SubmitResult.noConfusion (congrArg Prod.fst h)
  · exact SubmitResult.noConfusion (congrArg Prod.fst h)

/-! ### Claims -/

/-- Claim C1: every submission that passes all validation (type, location,
description present; description at most 1000 characters; coordinates
resolvable; at least one image saved) makes `submit_report` append exactly
one new report record to the persisted sequence and answer it with status
201, so the sequence returned by `load_reports` afterwards is exactly one
longer than before. -/
theorem C1_valid_submission_appends_one (form : Form) (files : List UploadedFile)
    (ts now : String) (fs : FS)
    (hrt : truthy (formType form) = true)
    (hloc : truthy (formLocation form) = true)
    (hdesc : truthy (formDescription form) = true)
    (hlen : ((formDescription form).getD "").length ≤ 1000)
    (hcoords : (resolveCoords ((formLocation form).getD "")
      (pyGet form "coordX") (pyGet form "coordY")).isSome = true)
    (hsave : files.any (fun f => f.filename != "" && f.saveOk) = true) :
    ∃ r fs', submit_report form files ts now fs = (.created r, fs')
      ∧ (SubmitResult.created r).statusCode = 201
      ∧ load_reports fs' = load_reports fs ++ [r]
      ∧ (load_reports fs').length = (load_reports fs).length + 1 := by
  rw [Option.isSome_iff_exists] at hcoords
  obtain ⟨⟨cx, cy⟩, hc⟩ := hcoords
  have hany := any_filename_of_any_saved hsave
  have hnames : (saveImages (folderFor ((formType form).getD "")) ts files).1 ≠ [] :=
    save_images_loop_ne_nil hsave
  have hlen' : ¬ (((formDescription form).getD "").length > 1000) := by omega
  have hstep : ∃ r fs', submit_report form files ts now fs = (.created r, fs') := by
    simp only [submit_report, submit_core, hrt, hloc, hdesc, Bool.and_self, if_true,
      hc, hany, if_neg hlen', if_neg hnames]
    exact ⟨_, _, rfl⟩
  obtain ⟨r, fs', hr⟩ := hstep
  have hload : load_reports fs' = load_reports fs ++ [r] := submit_core_created hr
  exact ⟨r, fs', hr, rfl, hload, by rw [hload]; simp⟩

/-- Witness for C1 at a concrete valid submission against an empty store. -/
theorem C1_valid_submission_appends_one_witness :
    ∃ r fs',
      submit_report
        [("type", "Pollution"), ("reportLocation", "Lat: 35.92, Lon: 74.30"),
         ("description", "trash by the river")]
        [{ filename := "photo one.jpg", saveOk := true }]
        "20250101_120000" "2025-01-01 12:00:00"
        { reportsFile := .missing, dirs := [], imageFiles := [], excel := none } =
        (.created r, fs')
      ∧ (SubmitResult.created r).statusCode = 201
      ∧ load_reports fs' =
          load_reports { reportsFile := JsonFile.missing, dirs := [], imageFiles := [], excel := none } ++ [r]
      ∧ (load_reports fs').length =
          (load_reports { reportsFile := JsonFile.missing, dirs := [], imageFiles := [], excel := none }).length + 1 :=
  C1_valid_submission_appends_one _ _ _ _ _
    (by decide) (by decide) (by decide) (by decide) (by decide) (by decide)

/-- Claim C2: every report created by a successful submission round-trips —
the last record of the sequence returned by `load_reports` after the save
has the same `type`, `description`, `coord_x`, `coord_y` and `images`
sequence as the record constructed and echoed at submission time. -/
theorem C2_round_trip (form : Form) (files : List UploadedFile) (ts now : String)
    (fs : FS) (r : Report) (fs' : FS)
    (h : submit_report form files ts now fs = (.created r, fs')) :
    ∃ stored, (load_reports fs').getLast? = some stored
      ∧ stored.type = r.type ∧ stored.description = r.description
      ∧ stored.coord_x = r.coord_x ∧ stored.coord_y = r.coord_y
      ∧ stored.images = r.images := by
  refine ⟨r, ?_, rfl, rfl, rfl, rfl, rfl⟩
  rw [submit_core_created h]
  simp

/-- Witness for C2 at the concrete example submission. -/
theorem C2_round_trip_witness :
    ∃ stored, (load_reports exampleFS).getLast? = some stored
      ∧ stored.type = exampleReport.type
      ∧ stored.description = exampleReport.description
      ∧ stored.coord_x = exampleReport.coord_x
      ∧ stored.coord_y = exampleReport.coord_y
      ∧ stored.images = exampleReport.images :=
  C2_round_trip exampleForm exampleFiles "20250101_120000" "2025-01-01 12:00:00"
    emptyFS exampleReport exampleFS (by decide)

/-- Counterexample to claim C3 as stated: a submission with valid fields
and no uploaded file does fail with 400 `At least one image is required.`
and persists nothing, but directories ARE created — `ensure_image_folders`
runs before the image check (app.py line 191 versus line 196), so starting
from a state with no directories the handler leaves the image root and the
per-category directories behind. -/
theorem C3_counterexample_dirs_created :
    (submit_report exampleForm [] "t" "n" emptyFS).1 =
      .badRequest "At least one image is required."
    ∧ emptyFS.dirs = []
    ∧ (submit_report exampleForm [] "t" "n" emptyFS).2.dirs =
        ["report_images", "report_images/pollution", "report_images/deforestation",
         "report_images/improvement", "report_images/other"] := by decide

/-- Claim C3 as amended: for every submission with present fields,
acceptable description length and resolvable coordinates in which no
uploaded file has a non-empty filename, `submit_report` fails with 400
`At least one image is required.`, saves no image file and leaves the
persisted report sequence unchanged — but the state differs from the
initial one exactly by `ensure_image_folders`, which creates the image
root and per-category directories before the check. -/
theorem C3_no_image_rejected (form : Form) (files : List UploadedFile)
    (ts now : String) (fs : FS)
    (hrt : truthy (formType form) = true)
    (hloc : truthy (formLocation form) = true)
    (hdesc : truthy (formDescription form) = true)
    (hlen : ((formDescription form).getD "").length ≤ 1000)
    (hcoords : (resolveCoords ((formLocation form).getD "")
      (pyGet form "coordX") (pyGet form "coordY")).isSome = true)
    (hnone : files.any (fun f => f.filename ≠ "") = false) :
    submit_report form files ts now fs =
      (.badRequest "At least one image is required.", ensure_image_folders fs)
    ∧ (ensure_image_folders fs).reportsFile = fs.reportsFile
    ∧ (ensure_image_folders fs).imageFiles = fs.imageFiles
    ∧ load_reports (ensure_image_folders fs) = load_reports fs := by
  rw [Option.isSome_iff_exists] at hcoords
  obtain ⟨⟨cx, cy⟩, hc⟩ := hcoords
  have hlen' : ¬ (((formDescription form).getD "").length > 1000) := by omega
  refine ⟨?_, rfl, rfl, rfl⟩
  simp only [submit_report, submit_core, hrt, hloc, hdesc, Bool.and_self, if_true,
    hc, if_neg hlen', hnone, Bool.false_eq_true, if_false]

/-- Witness for the amended C3 at a concrete submission with an empty file
list. -/
theorem C3_no_image_rejected_witness :
    submit_report exampleForm [] "t" "n" emptyFS =
      (.badRequest "At least one image is required.", ensure_image_folders emptyFS)
    ∧ (ensure_image_folders emptyFS).reportsFile = emptyFS.reportsFile
    ∧ (ensure_image_folders emptyFS).imageFiles = emptyFS.imageFiles
    ∧ load_reports (ensure_image_folders emptyFS) = load_reports emptyFS :=
  C3_no_image_rejected exampleForm [] "t" "n" emptyFS
    (by decide) (by decide) (by decide) (by decide) (by decide) (by decide)

/-- Claim C4: coordinate resolution — when both explicit coordinate fields
are given (truthy) they are parsed as floats and any float parse failure
resolves to nothing; otherwise the location string is parsed against the
`Lat: <num>, Lon: <num>` pattern, with `Lat: 35.92, Lon: 74.30` yielding
coordinates 35.92 and 74.30; and when resolution fails, `submit_report`
answers 400 `Invalid location format` with the state unchanged, so no
report is persisted. -/
theorem C4_coordinate_resolution (form : Form) (files : List UploadedFile)
    (ts now : String) (fs : FS)
    (hrt : truthy (formType form) = true)
    (hloc : truthy (formLocation form) = true)
    (hdesc : truthy (formDescription form) = true)
    (hlen : ((formDescription form).getD "").length ≤ 1000) :
    (∀ (loc : String) (cx? cy? : Option String) (x y : ℚ),
      (truthy cx? && truthy cy?) = true →
      pyFloat (cx?.getD "") = some x → pyFloat (cy?.getD "") = some y →
      resolveCoords loc cx? cy? = some (x, y))
  ∧ (∀ (loc : String) (cx? cy? : Option String),
      (truthy cx? && truthy cy?) = true →
      (pyFloat (cx?.getD "") = none ∨ pyFloat (cy?.getD "") = none) →
      resolveCoords loc cx? cy? = none)
  ∧ (∀ (loc : String) (cx? cy? : Option String),
      (truthy cx? && truthy cy?) = false →
      resolveCoords loc cx? cy? = parseLocation loc)
  ∧ parseLocation "Lat: 35.92, Lon: 74.30" = some (35.92, 74.30)
  ∧ (resolveCoords ((formLocation form).getD "")
        (pyGet form "coordX") (pyGet form "coordY") = none →
      submit_report form files ts now fs =
        (.badRequest "Invalid location format", fs)) := by
  have hlen' : ¬ (((formDescription form).getD "").length > 1000) := by omega
  refine ⟨?_, ?_, ?_, ?_, ?_⟩
  · intro loc cx? cy? x y hb hx hy
    simp [resolveCoords, hb, hx, hy]
  · intro loc cx? cy? hb hfail
    simp only [resolveCoords, hb, if_true]
    rcases hfail with h | h
    · rw [h]
    · rw [h]
      cases pyFloat (cx?.getD "") <;> rfl
  · intro loc cx? cy? hb
    simp [resolveCoords, hb]
  · rw [show (35.92 : ℚ) = mkRat 3592 100 by rw [Rat.mkRat_eq_div]; norm_num,
        show (74.30 : ℚ) = mkRat 7430 100 by rw [Rat.mkRat_eq_div]; norm_num]
    decide
  · intro hfail
    simp only [submit_report, submit_core, hrt, hloc, hdesc, Bool.and_self, if_true,
      if_neg hlen', hfail]

/-- Witness for C4: explicit coordinates parse as floats, the example
location string parses to (35.92, 74.30), and a concrete unparseable
location is answered with 400 and an unchanged state. -/
theorem C4_coordinate_resolution_witness :
    resolveCoords "anything" (some "1.5") (some "2.5") = some (mkRat 15 10, mkRat 25 10)
    ∧ parseLocation "Lat: 35.92, Lon: 74.30" = some (35.92, 74.30)
    ∧ submit_report [("type", "x"), ("reportLocation", "nowhere"), ("description", "d")]
        [] "t" "n" emptyFS = (.badRequest "Invalid location format", emptyFS) := by
  have h := C4_coordinate_resolution
    [("type", "x"), ("reportLocation", "nowhere"), ("description", "d")]
    [] "t" "n" emptyFS (by decide) (by decide) (by decide) (by decide)
  exact ⟨h.1 "anything" (some "1.5") (some "2.5") _ _ (by decide) (by decide) (by decide),
         h.2.2.2.1, h.2.2.2.2 (by decide)⟩

/-- Claim C5: `load_reports` never raises — it is a total function of the
file state; a missing file yields the empty sequence and any parse error
is caught and also yields the empty sequence (while a well-formed file
yields its contents). -/
theorem C5_load_reports_never_raises (fs : FS) :
    (fs.reportsFile = .missing → load_reports fs = [])
  ∧ (∀ e, json_load fs.reportsFile = .error e → load_reports fs = [])
  ∧ (∀ reports, fs.reportsFile = .good reports → load_reports fs = reports) := by
  obtain ⟨jf, d, i, ex⟩ := fs
  refine ⟨?_, ?_, ?_⟩ <;> cases jf <;> simp [load_reports, json_load, fileExists]

/-- Witness for C5 at a concrete corrupt file state. -/
theorem C5_load_reports_never_raises_witness :
    load_reports { reportsFile := JsonFile.corrupt, dirs := [], imageFiles := [],
                   excel := none } = [] :=
  (C5_load_reports_never_raises _).2.1 "Expecting value" rfl

/-- Claim C6: `export_reports_excel` answers 404 `No reports to export.`
exactly when the persisted sequence is empty; otherwise it answers a
single-sheet workbook with one data row per report (all categories
together), so after one successful submission against an empty store the
exported sheet has exactly one data row. -/
theorem C6_export_reports (fs : FS) (form : Form) (files : List UploadedFile)
    (ts now : String) (r : Report) (fs' : FS) :
    (export_reports_excel fs = .notFound "No reports to export." ↔ load_reports fs = [])
  ∧ ((export_reports_excel fs).statusCode = 404 ↔ load_reports fs = [])
  ∧ (load_reports fs ≠ [] →
      export_reports_excel fs = .download
        { title := "Sheet1", header := reportKeys, rows := (load_reports fs).map reportRow }
      ∧ ((load_reports fs).map reportRow).length = (load_reports fs).length)
  ∧ (load_reports fs = [] → submit_report form files ts now fs = (.created r, fs') →
      export_reports_excel fs' = .download
        { title := "Sheet1", header := reportKeys, rows := [reportRow r] }
      ∧ [reportRow r].length = 1) := by
  refine ⟨?_, ?_, ?_, ?_⟩
  · by_cases h : load_reports fs = [] <;> simp [export_reports_excel, h]
  · by_cases h : load_reports fs = [] <;>
      simp [export_reports_excel, h, ExportResult.statusCode]
  · intro h
    exact ⟨by simp [export_reports_excel, h], by simp⟩
  · intro h hsub
    have hload : load_reports fs' = load_reports fs ++ [r] := submit_core_created hsub
    rw [h] at hload
    exact ⟨by simp [export_reports_excel, hload], rfl⟩

/-- Witness for C6: the empty store yields 404, and the state after the
concrete example submission exports a sheet with exactly one data row. -/
theorem C6_export_reports_witness :
    (export_reports_excel emptyFS = .notFound "No reports to export.")
    ∧ export_reports_excel exampleFS = .download
        { title := "Sheet1", header := reportKeys, rows := [reportRow exampleReport] }
    ∧ [reportRow exampleReport].length = 1 := by
  have h := C6_export_reports emptyFS exampleForm exampleFiles "20250101_120000"
    "2025-01-01 12:00:00" exampleReport exampleFS
  exact ⟨h.1.mpr (by decide), h.2.2.2 (by decide) (by decide)⟩

/-- Claim C7: with type, location and description present, `submit_report`
answers 400 `Description too long.` with the state unchanged exactly when
the description exceeds 1000 characters — a 1000-character description
passes this check, a 1001-character one is rejected with nothing
persisted. -/
theorem C7_description_length_bound (form : Form) (files : List UploadedFile)
    (ts now : String) (fs : FS)
    (hrt : truthy (formType form) = true)
    (hloc : truthy (formLocation form) = true)
    (hdesc : truthy (formDescription form) = true) :
    submit_report form files ts now fs = (.badRequest "Description too long.", fs)
      ↔ ((formDescription form).getD "").length > 1000 := by
  constructor
  · intro h
    by_contra hlen
    simp only [submit_report, submit_core, hrt, hloc, hdesc, Bool.and_self, if_true,
      if_neg hlen] at h
    split at h
    all_goals
      first
      | exact SubmitResult.noConfusion (congrArg Prod.fst h)
      | (have h1 := congrArg Prod.fst h
         simp only [SubmitResult.badRequest.injEq] at h1
         exact absurd h1 (by decide))
      | (split at h
         all_goals
           first
           | exact SubmitResult.noConfusion (congrArg Prod.fst h)
           | (have h1 := congrArg Prod.fst h
              simp only [SubmitResult.badRequest.injEq] at h1
              exact absurd h1 (by decide))
           | (split at h
              all_goals exact SubmitResult.noConfusion (congrArg Prod.fst h)))
  · intro h
    simp only [submit_report, submit_core, hrt, hloc, hdesc, Bool.and_self, if_true,
      if_pos h]

set_option maxRecDepth 100000 in
/-- Witness for C7: a concrete 1001-character description is rejected and
a concrete 1000-character one is not. -/
theorem C7_description_length_bound_witness :
    submit_report
      [("type", "x"), ("reportLocation", "loc"),
       ("description", String.mk (List.replicate 1001 'a'))] [] "t" "n" emptyFS =
      (.badRequest "Description too long.", emptyFS)
    ∧ ¬ (submit_report
      [("type", "x"), ("reportLocation", "loc"),
       ("description", String.mk (List.replicate 1000 'a'))] [] "t" "n" emptyFS =
      (.badRequest "Description too long.", emptyFS)) := by
  constructor
  · exact (C7_description_length_bound _ [] "t" "n" emptyFS
      (by decide) (by decide) (by decide)).mpr (by decide)
  · intro h
    have := (C7_description_length_bound _ [] "t" "n" emptyFS
      (by decide) (by decide) (by decide)).mp h
    revert this
    decide

/-- The writes of the image-saving loop are exactly its returned filenames
paired with the target folder. -/
theorem save_images_loop_writes (folder ts : String) (files : List UploadedFile)
    (idx : Nat) :
    (save_images_loop folder ts idx files).2 =
      ((save_images_loop folder ts idx files).1).map (fun n => (folder, n)) := by
  induction files generalizing idx with
  | nil => rfl
  | cons f rest ih =>
    simp only [save_images_loop]
    by_cases h1 : f.filename = ""
    · rw [if_neg (by simp [h1])]
      exact ih idx.succ
    · by_cases h2 : f.saveOk = true
      · rw [if_pos h1, if_pos h2]
        simp [ih idx.succ]
      · rw [if_pos h1, if_neg h2]
        exact ih idx.succ

/-- Claim C8: image saving — the generated filenames are exactly, in input
order, `secure_filename (timestamp ++ underscore ++ one-based index ++
original extension)` for every uploaded file with a non-empty filename
whose write succeeds (files with empty names or failed writes are skipped
without aborting the rest); every write lands in the target folder, which
is the lower-cased type when that is in the fixed category set and `other`
otherwise. -/
theorem C8_image_saving (folder ts : String) (files : List UploadedFile) :
    (saveImages folder ts files).1 = files.enum.filterMap (fun p =>
        if p.2.filename ≠ "" ∧ p.2.saveOk = true then
          some (secure_filename (ts ++ "_" ++ toString (p.1 + 1) ++ splitextExt p.2.filename))
        else none)
  ∧ (saveImages folder ts files).2 =
      ((saveImages folder ts files).1).map (fun n => (folder, n))
  ∧ (∀ rt, pyLower rt ∈ REPORT_TYPES → folderFor rt = pyLower rt)
  ∧ (∀ rt, pyLower rt ∉ REPORT_TYPES → folderFor rt = "other") := by
  refine ⟨?_, ?_, ?_, ?_⟩
  · rw [saveImages, save_images_loop_eq]
    rfl
  · exact save_images_loop_writes folder ts files 0
  · intro rt h
    simp [folderFor, h]
  · intro rt h
    simp [folderFor, h]

/-- Witness for C8: a concrete file list with an empty-named part and a
failing write keeps only the successful named files, in order and with
their enumerate positions; unknown types fall back to the `other`
folder. -/
theorem C8_image_saving_witness :
    (saveImages "other" "20250101_120000"
      [⟨"a b.jpg", true⟩, ⟨"", true⟩, ⟨"c.png", false⟩, ⟨"d e.png", true⟩]).1 =
      ["20250101_120000_1.jpg", "20250101_120000_4.png"]
    ∧ folderFor "Garbage" = "other"
    ∧ folderFor "POLLUTION" = "pollution" := by
  have h := C8_image_saving "other" "20250101_120000"
    [⟨"a b.jpg", true⟩, ⟨"", true⟩, ⟨"c.png", false⟩, ⟨"d e.png", true⟩]
  exact ⟨by decide, h.2.2.2 "Garbage" (by decide), h.2.2.1 "POLLUTION" (by decide)⟩

/-- The resolved category of a report is always in the fixed category
set. -/
theorem resolvedCat_mem (r : Report) : resolvedCat r ∈ REPORT_TYPES := by
  by_cases h : pyLower r.type ∈ REPORT_TYPES
  · simp [resolvedCat, h]
  · simp only [resolvedCat, if_neg h]
    decide

/-- Sums of pointwise sums of two maps split. -/
theorem sum_map_add_nat {α : Type} (f g : α → Nat) (l : List α) :
    (l.map fun a => f a + g a).sum = (l.map f).sum + (l.map g).sum := by
  induction l with
  | nil => rfl
  | cons a l ih =>
    simp only [List.map_cons, List.sum_cons, ih]
    omega

/-- The sum of the indicator of a value over a list counts its
occurrences. -/
theorem sum_indicator_count (a : String) (cats : List String) :
    (cats.map fun c => if a == c then 1 else 0).sum = cats.count a := by
  induction cats with
  | nil => rfl
  | cons c cs ih =>
    simp only [List.map_cons, List.sum_cons, List.count_cons, ih]
    by_cases hac : a = c
    · subst hac
      simp [Nat.add_comm]
    · have h1 : (a == c) = false := by simpa using hac
      have h2 : (c == a) = false := by simpa using (Ne.symm hac)
      simp [h1, h2]

/-- Partition property: when a classifier always lands in a duplicate-free
list of categories, the per-category filter lengths sum to the total
length. -/
theorem partition_length_eq (cats : List String) (hnd : cats.Nodup)
    (f : Report → String) (hf : ∀ r, f r ∈ cats) (rs : List Report) :
    (cats.map fun c => (rs.filter fun r => f r == c).length).sum = rs.length := by
  induction rs with
  | nil => simp
  | cons r rs ih =>
    have hstep : ∀ c : String, ((r :: rs).filter fun x => f x == c).length =
        (if f r == c then 1 else 0) + ((rs.filter fun x => f x == c)).length := by
      intro c
      by_cases h : (f r == c) = true <;> simp [List.filter_cons, h, Nat.add_comm]
    simp only [hstep]
    rw [sum_map_add_nat, ih, sum_indicator_count,
      List.count_eq_one_of_mem hnd (hf r)]
    simp [Nat.add_comm]

/-- The row count of the category sheets over any category list is the sum
of the group sizes. -/
theorem sheetRowCount_filterMap (reports : List Report) (cats : List String) :
    sheetRowCount (cats.filterMap (categorySheet reports)) =
      (cats.map fun c => (reports.filter fun r => resolvedCat r == c).length).sum := by
  induction cats with
  | nil => rfl
  | cons c cs ih =>
    by_cases h : (reports.filter fun r => resolvedCat r == c) = [] <;>
      simp [sheetRowCount, List.filterMap_cons, categorySheet, h, ih] <;>
      simp [sheetRowCount] at ih <;> omega

/-- Claim C9: the mirrored workbook written by `save_reports` is derived
deterministically from the report sequence alone; every emitted sheet is
non-empty and carries the capitalized field names as header; each category
with a non-empty group (reports grouped by lower-cased type, unrecognized
types under `other`) yields the sheet with the group rows in order; the
sheets together hold exactly one data row per report; and every row
flattens the `images` list into a comma-joined string cell. -/
theorem C9_excel_mirror (reports : List Report) (fs : FS) :
    (save_reports reports fs).excel = some (excelWorkbook reports)
  ∧ (∀ s ∈ excelWorkbook reports, s.rows ≠ [] ∧ s.header = reportKeys.map pyCapitalize)
  ∧ (∀ cat ∈ REPORT_TYPES, (reports.filter fun r => resolvedCat r == cat) ≠ [] →
      ({ title := pyCapitalize cat, header := reportKeys.map pyCapitalize,
         rows := (reports.filter fun r => resolvedCat r == cat).map reportRow } : Sheet)
        ∈ excelWorkbook reports)
  ∧ sheetRowCount (excelWorkbook reports) = reports.length
  ∧ (∀ r : Report, (reportRow r).getLast? = some (.str (joinSep ", " r.images))) := by
  refine ⟨rfl, ?_, ?_, ?_, fun r => rfl⟩
  · intro s hs
    simp only [excelWorkbook, List.mem_filterMap] at hs
    obtain ⟨cat, hcat, hsome⟩ := hs
    simp only [categorySheet] at hsome
    by_cases h : (reports.filter fun r => resolvedCat r == cat) = []
    · rw [if_pos h] at hsome
      exact Option.noConfusion hsome
    · rw [if_neg h] at hsome
      injection hsome with hsome
      subst hsome
      refine ⟨?_, rfl⟩
      simpa using h
  · intro cat hcat hne
    simp only [excelWorkbook, List.mem_filterMap]
    refine ⟨cat, hcat, ?_⟩
    simp only [categorySheet, if_neg hne]
  · rw [excelWorkbook, sheetRowCount_filterMap]
    exact partition_length_eq REPORT_TYPES (by decide) resolvedCat resolvedCat_mem reports

/-- Witness for C9 at a one-report sequence. -/
theorem C9_excel_mirror_witness :
    (save_reports [exampleReport] emptyFS).excel = some (excelWorkbook [exampleReport])
    ∧ ({ title := pyCapitalize "pollution", header := reportKeys.map pyCapitalize,
         rows := ([exampleReport].filter fun r => resolvedCat r == "pollution").map reportRow } : Sheet)
        ∈ excelWorkbook [exampleReport]
    ∧ sheetRowCount (excelWorkbook [exampleReport]) = 1 := by
  have h := C9_excel_mirror [exampleReport] emptyFS
  exact ⟨h.1, h.2.2.1 "pollution" (by decide) (by decide), h.2.2.2.1⟩

/-- Claim C10: form-field aliasing at the public interface — adding a
binding under the key `location` never changes the outcome of
`submit_report`; the report type is read from `type` with fallback to
`reportType` exactly when `type` is absent or empty; the description is
read from `description` with fallback to `reportDescription` in the same
way; the location is read only from `reportLocation`, and its absence
yields the 400 `Missing required fields` answer. -/
theorem C10_form_field_aliasing (form : Form) (v : String)
    (files : List UploadedFile) (ts now : String) (fs : FS) :
    (submit_report (("location", v) :: form) files ts now fs =
      submit_report form files ts now fs)
  ∧ ((pyGet form "type").getD "" = "" → formType form = pyGet form "reportType")
  ∧ (∀ s, pyGet form "type" = some s → s ≠ "" → formType form = some s)
  ∧ ((pyGet form "description").getD "" = "" →
      formDescription form = pyGet form "reportDescription")
  ∧ (∀ s, pyGet form "description" = some s → s ≠ "" → formDescription form = some s)
  ∧ formLocation form = pyGet form "reportLocation"
  ∧ (pyGet form "reportLocation" = none →
      submit_report form files ts now fs = (.badRequest "Missing required fields", fs)) := by
  refine ⟨?_, ?_, ?_, ?_, ?_, rfl, ?_⟩
  · simp only [submit_report, formType, formLocation, formDescription,
      pyGet_cons_ne "location" v "type" form (by decide),
      pyGet_cons_ne "location" v "reportType" form (by decide),
      pyGet_cons_ne "location" v "reportLocation" form (by decide),
      pyGet_cons_ne "location" v "description" form (by decide),
      pyGet_cons_ne "location" v "reportDescription" form (by decide),
      pyGet_cons_ne "location" v "coordX" form (by decide),
      pyGet_cons_ne "location" v "coordY" form (by decide)]
  · intro h
    cases hg : pyGet form "type" with
    | none => simp [formType, pyOr, hg]
    | some s =>
      rw [hg] at h
      simp only [Option.getD_some] at h
      simp [formType, pyOr, hg, h]
  · intro s hg hs
    simp [formType, pyOr, hg, hs]
  · intro h
    cases hg : pyGet form "description" with
    | none => simp [formDescription, pyOr, hg]
    | some s =>
      rw [hg] at h
      simp only [Option.getD_some] at h
      simp [formDescription, pyOr, hg, h]
  · intro s hg hs
    simp [formDescription, pyOr, hg, hs]
  · intro h
    simp [submit_report, submit_core, formLocation, h, truthy]

/-- Witness for C10: a `location` binding is ignored, the type falls back
to `reportType`, and a form without `reportLocation` is answered with 400
`Missing required fields`. -/
theorem C10_form_field_aliasing_witness :
    (submit_report (("location", "Lat: 1, Lon: 2") ::
        [("reportType", "pollution"), ("reportDescription", "d")]) [] "t" "n" emptyFS =
      submit_report [("reportType", "pollution"), ("reportDescription", "d")] [] "t" "n" emptyFS)
    ∧ formType [("reportType", "pollution"), ("reportDescription", "d")] = some "pollution"
    ∧ submit_report [("reportType", "pollution"), ("reportDescription", "d")] [] "t" "n" emptyFS =
        (.badRequest "Missing required fields", emptyFS) := by
  have h := C10_form_field_aliasing
    [("reportType", "pollution"), ("reportDescription", "d")] "Lat: 1, Lon: 2" [] "t" "n" emptyFS
  refine ⟨h.1, ?_, h.2.2.2.2.2.2 (by decide)⟩
  rw [h.2.1 (by decide)]
  decide
